import Mathlib

set_option maxRecDepth 100000

/-!
Verification of the "Pago Móvil" single-page payment form (src/App.tsx).

The development shallowly embeds the data model and the handlers of the
payment form: the USD→Bs derived-amount logic (`handleAmountChange`, the
`config.tasa` effect), the reference sanitizer (`handleReferenceChange`),
the file-size guard (`handleFileSelect`), the submission workflow
(`handleNotifyPayment`, `uploadImageToDrive`), the admin save
(`saveSettings`) and the theme shade computation (`adjustColor`,
`hexToRgba`).

JavaScript numbers are modelled as exact fractions (`Frac`: an integer
numerator over a natural denominator, kept unnormalized so that every
operation is a plain integer computation); `Frac.toRat` maps a fraction to
the rational it denotes.  The JS builtins used by the code (`parseFloat`,
`toLocaleString` for the es-VE locale, `encodeURIComponent`,
`parseInt(·, 16)`, `Number.prototype.toString(16)`) are given executable
models below, each documented at its definition.  All numbers that the
form manipulates are exact decimals, so the fraction model coincides with
IEEE-754 on everything the claims evaluate.
-/

/-! ## Exact fractions standing in for JS numbers -/

/-- A JS number as an exact fraction.  The denominator is positive for
every value built by this development (literals and `parseFloat` results
have power-of-ten denominators, and products preserve positivity). -/
structure Frac where
  num : Int
  den : Nat
  deriving DecidableEq, Repr

/-- Embed an integer. -/
def Frac.ofInt (n : Int) : Frac := ⟨n, 1⟩

/-- JS `*` on fractions. -/
def Frac.mul (a b : Frac) : Frac := ⟨a.num * b.num, a.den * b.den⟩

/-- JS `+` on fractions. -/
def Frac.add (a b : Frac) : Frac :=
  ⟨a.num * (b.den : Int) + b.num * (a.den : Int), a.den * b.den⟩

/-- JS unary minus. -/
def Frac.neg (a : Frac) : Frac := ⟨-a.num, a.den⟩

/-- JS `<` (valid when both denominators are positive). -/
def Frac.blt (a b : Frac) : Bool :=
  decide (a.num * (b.den : Int) < b.num * (a.den : Int))

/-- JS `<=` (valid when both denominators are positive). -/
def Frac.ble (a b : Frac) : Bool :=
  decide (a.num * (b.den : Int) ≤ b.num * (a.den : Int))

/-- Floor of a fraction (floor division of numerator by denominator). -/
def Frac.floor (a : Frac) : Int := Int.fdiv a.num (Int.ofNat a.den)

/-- The rational a fraction denotes. -/
def Frac.toRat (a : Frac) : ℚ := (a.num : ℚ) / (a.den : ℚ)

/-! ## Model of JavaScript `parseFloat` -/

/-- Value of a list of decimal digit characters, most significant first. -/
def digitsToNat (ds : List Char) : Nat :=
  ds.foldl (fun n c => 10 * n + (c.toNat - 48)) 0

/-- JS whitespace (the common cases): space, tab, LF, VT, FF, CR. -/
def isSpaceChar (c : Char) : Bool :=
  c.toNat = 32 || c.toNat = 9 || c.toNat = 10 || c.toNat = 11 ||
  c.toNat = 12 || c.toNat = 13

/-- Optional leading sign of a JS decimal literal. -/
def parseSign (l : List Char) : Int × List Char :=
  match l with
  | '-' :: rest => (-1, rest)
  | '+' :: rest => (1, rest)
  | _ => (1, l)

/-- Exponent part of a JS decimal literal (`e`/`E`, optional sign, digits).
If the `e` is not followed by at least one digit, JS treats it as trailing
garbage and the exponent is 0. -/
def parseExpPart (l : List Char) : Int :=
  match l with
  | c :: rest =>
    if c = 'e' || c = 'E' then
      let (sgn, rest2) : Int × List Char :=
        match rest with
        | '-' :: r => (-1, r)
        | '+' :: r => (1, r)
        | _ => (1, rest)
      let ds := rest2.takeWhile Char.isDigit
      if ds.isEmpty then 0 else sgn * (digitsToNat ds : Int)
    else 0
  | [] => 0

/-- The list after whitespace and an optional sign. -/
def numBody (s : String) : List Char := (parseSign (s.data.dropWhile isSpaceChar)).2

/-- The sign factor of the literal. -/
def signOf (s : String) : Int := (parseSign (s.data.dropWhile isSpaceChar)).1

/-- The leading run of integer digits. -/
def intDigitsOf (s : String) : List Char := (numBody s).takeWhile Char.isDigit

/-- What remains after the integer digits. -/
def restAfterInt (s : String) : List Char := (numBody s).drop (intDigitsOf s).length

/-- The fraction digits (the digit run after a leading dot), if any. -/
def fracDigitsOf (s : String) : List Char :=
  match restAfterInt s with
  | '.' :: rest => rest.takeWhile Char.isDigit
  | _ => []

/-- What remains after the fraction part (where an exponent may start). -/
def afterFrac (s : String) : List Char :=
  match restAfterInt s with
  | '.' :: rest => rest.drop (rest.takeWhile Char.isDigit).length
  | _ => restAfterInt s

/-- The exponent of the literal (0 when absent). -/
def expOf (s : String) : Int := parseExpPart (afterFrac s)

/-- The unsigned mantissa, scaled by the fraction length: for digits
`d.f`, the integer `d * 10 ^ |f| + f`. -/
def mantissaOf (s : String) : Int :=
  Int.ofNat (digitsToNat (intDigitsOf s) * 10 ^ (fracDigitsOf s).length +
    digitsToNat (fracDigitsOf s))

/-- Model of JavaScript `parseFloat`: skip leading whitespace, read an
optional sign, integer digits, an optional fraction, and an optional
exponent; ignore any trailing garbage.  `none` models `NaN` (no digits at
all).  Finite decimal literals are modelled exactly; the special literal
`Infinity` is outside the model (no claim touches it). -/
def parseFloat (s : String) : Option Frac :=
  if (intDigitsOf s).isEmpty && (fracDigitsOf s).isEmpty then none
  else if 0 ≤ expOf s then
    some ⟨signOf s * mantissaOf s * Int.ofNat (10 ^ (expOf s).toNat),
      10 ^ (fracDigitsOf s).length⟩
  else
    some ⟨signOf s * mantissaOf s,
      10 ^ (fracDigitsOf s).length * 10 ^ (-expOf s).toNat⟩

/-! ## Model of `Number.prototype.toLocaleString('es-VE', …)` -/

/-- Split a (reversed) digit list into groups of three, fuelled. -/
def chunkRev : Nat → List Char → List (List Char)
  | 0, _ => []
  | _, [] => []
  | fuel + 1, l => l.take 3 :: chunkRev fuel (l.drop 3)

/-- Integer-part grouping of the es-VE locale: thousands separated by `.`,
with CLDR `minimumGroupingDigits = 2` for Spanish, so grouping only kicks
in from five integer digits on (`1000` stays `1000`, `10000` becomes
`10.000`). -/
def groupDigits (ds : List Char) : String :=
  if ds.length < 5 then String.mk ds
  else
    String.intercalate "."
      (((chunkRev ds.length ds.reverse).map (fun c => String.mk c.reverse)).reverse)

/-- Left-pad a fraction digit list with zeros to the requested width. -/
def padFrac (w : Nat) (ds : List Char) : String :=
  String.mk (List.replicate (w - ds.length) '0' ++ ds)

/-- es-VE rendering with exactly `fracDigits` fraction digits: round half
away from zero (ECMA-402 `halfExpand`) at that precision, group the
integer part with `.`, and use `,` as the decimal separator. -/
def formatVEWith (fracDigits : Nat) (q : Frac) : String :=
  let neg := Frac.blt q (Frac.ofInt 0)
  let a : Frac := if neg then Frac.neg q else q
  let scaled : Nat :=
    (Frac.floor (Frac.add (Frac.mul a (Frac.ofInt (Int.ofNat (10 ^ fracDigits)))) ⟨1, 2⟩)).toNat
  let ip := scaled / 10 ^ fracDigits
  let fp := scaled % 10 ^ fracDigits
  (if neg then "-" else "") ++ groupDigits (Nat.toDigits 10 ip) ++ "," ++
    padFrac fracDigits (Nat.toDigits 10 fp)

/-- `toLocaleString('es-VE', { minimumFractionDigits: 2, maximumFractionDigits: 2 })`. -/
def formatVE2 (q : Frac) : String := formatVEWith 2 q

/-- `toLocaleString('es-VE', { minimumFractionDigits: 2 })`: between 2 and
3 fraction digits (ECMA-402 defaults `maximumFractionDigits` to 3 here),
the third digit dropped when it is zero. -/
def formatVEmin2 (q : Frac) : String :=
  let a : Frac := if Frac.blt q (Frac.ofInt 0) then Frac.neg q else q
  let n3 := (Frac.floor (Frac.add (Frac.mul a (Frac.ofInt 1000)) ⟨1, 2⟩)).toNat
  if n3 % 10 = 0 then formatVEWith 2 q else formatVEWith 3 q

/-! ## Substring matching (for "the message contains …" properties) -/

/-- Does `pat` occur at the head of the second list? -/
def leadMatch : List Char → List Char → Bool
  | [], _ => true
  | _ :: _, [] => false
  | a :: as, b :: bs => a = b && leadMatch as bs

/-- Does `pat` occur anywhere inside the second list? -/
def containsSub (pat : List Char) : List Char → Bool
  | [] => pat.isEmpty
  | c :: rest => leadMatch pat (c :: rest) || containsSub pat rest

/-- Does the string `pat` occur anywhere inside `s`? -/
def containsStr (pat s : String) : Bool := containsSub pat.data s.data

/-! ## Model of JavaScript `encodeURIComponent`

`encodeURIComponent` leaves alphanumerics and `- _ . ! ~ * ' ( )`
untouched and percent-encodes every other character as the uppercase hex
of its UTF-8 bytes.  (JS works on UTF-16 code units; for well-formed text,
encoding each code point in UTF-8 — as done here — yields the same byte
sequence.) -/

/-- UTF-8 bytes of a character. -/
def utf8Bytes (c : Char) : List Nat :=
  let n := c.toNat
  if n < 128 then [n]
  else if n < 2048 then [192 + n / 64, 128 + n % 64]
  else if n < 65536 then [224 + n / 4096, 128 + n / 64 % 64, 128 + n % 64]
  else [240 + n / 262144, 128 + n / 4096 % 64, 128 + n / 64 % 64, 128 + n % 64]

/-- Uppercase hex digit. -/
def hexDigitUpper (n : Nat) : Char :=
  Char.ofNat (if n < 10 then 48 + n else 55 + n)

/-- Percent-encoding of one byte. -/
def pctByte (b : Nat) : String :=
  String.mk ['%', hexDigitUpper (b / 16), hexDigitUpper (b % 16)]

/-- The characters `encodeURIComponent` leaves unescaped: ASCII letters,
digits, and `- _ . ! ~ * ' ( )` (codes 45, 95, 46, 33, 126, 42, 39, 40, 41). -/
def isURIUnescaped (c : Char) : Bool :=
  (65 ≤ c.toNat && c.toNat ≤ 90) || (97 ≤ c.toNat && c.toNat ≤ 122) ||
  (48 ≤ c.toNat && c.toNat ≤ 57) ||
  [45, 95, 46, 33, 126, 42, 39, 40, 41].contains c.toNat

/-- Encode a character list (recursive so the encoding of an appended list
splits as the append of the encodings). -/
def encodeChars : List Char → String
  | [] => ""
  | c :: rest =>
    (if isURIUnescaped c then String.mk [c]
     else String.join ((utf8Bytes c).map pctByte)) ++ encodeChars rest

/-- Model of JS `encodeURIComponent`. -/
def encodeURIComponent (s : String) : String := encodeChars s.data

/-! ## Theme color computation (src/App.tsx, `adjustColor` / `hexToRgba`) -/

/-- Value of one hex digit character (either case); `none` when the
character is not a hex digit. -/
def hexCharVal (c : Char) : Option Nat :=
  if 48 ≤ c.toNat ∧ c.toNat ≤ 57 then some (c.toNat - 48)
  else if 97 ≤ c.toNat ∧ c.toNat ≤ 102 then some (c.toNat - 87)
  else if 65 ≤ c.toNat ∧ c.toNat ≤ 70 then some (c.toNat - 55)
  else none

/-- Is the character a hex digit? -/
def isHexDigit (c : Char) : Bool := (hexCharVal c).isSome

/-- Hex digit value with default 0 (only used under `isHexDigit`). -/
def hexVal (c : Char) : Nat := (hexCharVal c).getD 0

/-- Model of JS `parseInt(s, 16)` on an unsigned string: value of the
maximal leading run of hex digits; `none` models `NaN` (no leading hex
digit).  The sign/whitespace/`0x` handling of full `parseInt` is not
needed: the code only applies it to two-character slices of a color. -/
def parseHexLeading (l : List Char) : Option Nat :=
  let ds := l.takeWhile isHexDigit
  if ds.isEmpty then none
  else some (ds.foldl (fun n c => 16 * n + hexVal c) 0)

/-- `Math.min(255, Math.max(0, i))`, as a `Nat`. -/
def clamp255 (i : Int) : Nat := (min 255 (max 0 i)).toNat

/-- `('0' + n.toString(16)).substr(-2)` for `n ≤ 255`: lowercase hex
(`Nat.toDigits 16` uses lowercase letters), left-padded with `'0'`, last
two characters kept. -/
def hex2 (n : Nat) : List Char :=
  (('0' :: Nat.toDigits 16 n).reverse.take 2).reverse

/-- The regex-callback of `adjustColor` on one two-character slice:
`('0' + Math.min(255, Math.max(0, parseInt(p, 16) + amount)).toString(16)).substr(-2)`.
When the slice is not hex, JS computes `('0' + 'NaN').substr(-2) = "aN"`. -/
def adjustPair (amount : Int) (p : List Char) : List Char :=
  match parseHexLeading p with
  | none => ['a', 'N']
  | some v => hex2 (clamp255 ((v : Int) + amount))

/-- `String.prototype.replace(/../g, f)`: rewrite successive two-character
slices, leaving a trailing odd character unchanged (fuelled recursion). -/
def mapPairs (f : List Char → List Char) : Nat → List Char → List Char
  | _, [] => []
  | _, [c] => [c]
  | 0, l => l
  | fuel + 1, a :: b :: rest => f [a, b] ++ mapPairs f fuel rest

/-- `color.replace(/^#/, '')`: drop one leading `#`. -/
def stripHash (l : List Char) : List Char :=
  match l with
  | '#' :: rest => rest
  | _ => l

/-- src/App.tsx `adjustColor`: re-prefix `#`, and adjust every
two-hex-digit channel by `amount`, clamped to `[0, 255]`. -/
def adjustColor (color : String) (amount : Int) : String :=
  String.mk ('#' :: mapPairs (adjustPair amount) (stripHash color.data).length
    (stripHash color.data))

/-- Decimal rendering of `parseInt(…, 16)` inside a JS template literal:
the number's digits, or `"NaN"`. -/
def showNumOpt (o : Option Nat) : String :=
  match o with
  | some n => String.mk (Nat.toDigits 10 n)
  | none => "NaN"

/-- `s.slice(a, b)` for a JS string (ASCII color strings only here). -/
def jsSlice (s : String) (a b : Nat) : List Char := (s.data.drop a).take (b - a)

/-- src/App.tsx `hexToRgba`.  The alpha is passed as the decimal rendering
JS gives it inside the template literal (the code always calls this with
`0.2`, rendered `"0.2"`). -/
def hexToRgba (hex : String) (alphaLit : String) : String :=
  "rgba(" ++ showNumOpt (parseHexLeading (jsSlice hex 1 3)) ++ ", " ++
    showNumOpt (parseHexLeading (jsSlice hex 3 5)) ++ ", " ++
    showNumOpt (parseHexLeading (jsSlice hex 5 7)) ++ ", " ++ alphaLit ++ ")"

/-- The three derived theme tones of `updateTheme`: the two darker shades
(`adjustColor` at −20 and −40) and the translucent shadow
(`hexToRgba(color, 0.2)`). -/
def themeShades (colorHex : String) : String × String × String :=
  (adjustColor colorHex (-20), adjustColor colorHex (-40), hexToRgba colorHex "0.2")

example : parseFloat "10" = some (Frac.ofInt 10) := by decide
example : parseFloat "" = none := by decide
example : parseFloat "10abc" = some (Frac.ofInt 10) := by decide
example : parseFloat "0" = some (Frac.ofInt 0) := by decide
example : parseFloat "45.5" = some ⟨455, 10⟩ := by decide
example : parseFloat "-2.5" = some ⟨-25, 10⟩ := by decide
example : parseFloat "1e2" = some (Frac.ofInt 100) := by decide
example : formatVE2 (Frac.mul (Frac.ofInt 10) (Frac.ofInt 60)) = "600,00" := by decide
example : formatVEmin2 (Frac.ofInt 60) = "60,00" := by decide
example : formatVEmin2 (Frac.ofInt 10) = "10,00" := by decide
example : formatVEmin2 ⟨455, 10⟩ = "45,50" := by decide
example : formatVE2 (Frac.ofInt 12345) = "12.345,00" := by decide
example : formatVE2 (Frac.ofInt 1234) = "1234,00" := by decide
example : formatVE2 ⟨-25, 10⟩ = "-2,50" := by decide
example : containsStr "600,00" "x 600,00 Bs" = true := by decide
example : containsStr "10.00" "10,00" = false := by decide
example : adjustColor "#20963b" (-20) = "#0c8227" := by decide
example : adjustColor "#20963b" (-40) = "#006e13" := by decide
example : hexToRgba "#20963b" "0.2" = "rgba(32, 150, 59, 0.2)" := by decide
example : encodeURIComponent "10,00 a. m./x" = "10%2C00%20a.%20m.%2Fx" := by decide
example : encodeURIComponent "💵 ✅" = "%F0%9F%92%B5%20%E2%9C%85" := by decide

/-! ## Data model (src/App.tsx interfaces and defaults) -/

/-- src/App.tsx `AppConfig`. -/
structure AppConfig where
  tasa : Frac
  whatsapp : String
  nombreNegocio : String
  bankName : String
  bankCode : String
  cedula : String
  telefono : String
  themeColor : String
  lastUpdate : Nat
  googleScriptUrl : String
  deriving DecidableEq, Repr

/-- src/App.tsx `DEFAULT_CONFIG` (its `lastUpdate` is `Date.now()` at
module load, passed in as `now`). -/
def DEFAULT_CONFIG (now : Nat) : AppConfig :=
  { tasa := Frac.ofInt 60
    whatsapp := "584129855266"
    nombreNegocio := "Inversiones GSKY"
    bankName := "Banesco"
    bankCode := "0134"
    cedula := "14866713"
    telefono := "04129855266"
    themeColor := "#20963b"
    lastUpdate := now
    googleScriptUrl := "https://script.google.com/macros/s/AKfycbwjeRpKBlmUcj5hG-n4d3VyYnQXghBNMqW_yRO1g_yuW57l97mnfhq-V3SEBZqzvAxZRw/exec" }

/-! ## Calculator state machine (C1, C5)

The live state of the input form: the USD string, the derived Bs string,
the sanitized reference, and the current exchange rate.  Its transitions
are the two input handlers and the `config.tasa` change (the `useEffect`
with dependency `[config.tasa]`). -/

/-- The form state touched by the USD/Bs/reference logic. -/
structure CalcState where
  amountUSD : String
  amountBs : String
  reference : String
  tasa : Frac
  deriving DecidableEq, Repr

/-- src/App.tsx `handleAmountChange`: store the raw value; when it is
non-empty and `parseFloat` succeeds, derive `amountBs` as
`parseFloat(value) * config.tasa` formatted for es-VE with two fraction
digits, otherwise clear `amountBs`. -/
def handleAmountChange (s : CalcState) (value : String) : CalcState :=
  match parseFloat value with
  | some q =>
    if value = "" then { s with amountUSD := value, amountBs := "" }
    else { s with amountUSD := value, amountBs := formatVE2 (Frac.mul q s.tasa) }
  | none => { s with amountUSD := value, amountBs := "" }

/-- src/App.tsx `handleReferenceChange`:
`e.target.value.replace(/[^0-9]/g, '').slice(0, 4)`. -/
def handleReferenceChange (s : CalcState) (value : String) : CalcState :=
  { s with reference := String.mk ((value.data.filter Char.isDigit).take 4) }

/-- The `useEffect` with dependency `[config.tasa]` (src/App.tsx lines
159–164): when `amountUSD` is non-empty and parses, recompute `amountBs`
from the (new) rate; otherwise leave `amountBs` untouched. -/
def tasaEffect (s : CalcState) : CalcState :=
  match parseFloat s.amountUSD with
  | some q =>
    if s.amountUSD = "" then s
    else { s with amountBs := formatVE2 (Frac.mul q s.tasa) }
  | none => s

/-- An exchange-rate change arriving from the config store: replace the
rate, then run the `[config.tasa]` effect. -/
def setTasa (s : CalcState) (r : Frac) : CalcState :=
  tasaEffect { s with tasa := r }

/-- The events that can touch the calculator state while the form is
open. -/
inductive CalcEvent where
  | amount (value : String)
  | refEdit (value : String)
  | rate (r : Frac)
  deriving DecidableEq, Repr

/-- One step of the form's event loop. -/
def calcStep (s : CalcState) (e : CalcEvent) : CalcState :=
  match e with
  | .amount v => handleAmountChange s v
  | .refEdit v => handleReferenceChange s v
  | .rate r => setTasa s r

/-- Initial React state: all inputs empty, rate from `DEFAULT_CONFIG`. -/
def initCalc : CalcState :=
  { amountUSD := "", amountBs := "", reference := "", tasa := Frac.ofInt 60 }

/-- The C1 invariant: the Bs field shows `usd * tasa` (es-VE, two fraction
digits) exactly when the USD input is non-empty and numeric, and is
cleared otherwise. -/
def bsInSync (s : CalcState) : Prop :=
  match parseFloat s.amountUSD with
  | some q =>
    if s.amountUSD = "" then s.amountBs = ""
    else s.amountBs = formatVE2 (Frac.mul q s.tasa)
  | none => s.amountBs = ""

example : bsInSync initCalc := by simp [bsInSync, initCalc]; split <;> trivial

/-! ## Submission workflow (src/App.tsx `handleNotifyPayment`) -/

/-- The toast levels of `showToast`. -/
inductive ToastType where
  | success
  | error
  | info
  deriving DecidableEq, Repr

/-- One toast notification. -/
structure ToastMsg where
  message : String
  type : ToastType
  deriving DecidableEq, Repr

/-- The two validated fields, in focus order. -/
inductive FormField where
  | amount
  | reference
  deriving DecidableEq, Repr

/-- A selected file (the attributes the code reads). -/
structure FileDesc where
  name : String
  size : Nat
  mime : String
  deriving DecidableEq, Repr

/-- The JSON body the upload endpoint answers with (`{result, url}`).
The surrounding `Option` in `Env.uploadResp` models a thrown
`fetch`/`json` error (network failure). -/
structure UploadResp where
  result : String
  url : String
  deriving DecidableEq, Repr

/-- The external world of one submission: database availability, the
upload endpoint's answer, whether the `push` write succeeds, and the
wall-clock renderings the code asks the `Date` API for. -/
structure Env where
  dbAvailable : Bool
  uploadResp : Option UploadResp
  persistOk : Bool
  nowISO : String
  nowMs : Nat
  fecha : String
  hora : String
  deriving DecidableEq, Repr

/-- The record pushed to `payments` (src/App.tsx `newPayment`, plus the
key-derived `id` which the push assigns externally). -/
structure TxRecord where
  date : String
  amountUSD : Frac
  amountBs : String
  reference : String
  photoUrl : Option String
  timestamp : Nat
  deriving DecidableEq, Repr

/-- Everything `handleNotifyPayment` reads. -/
structure AppState where
  config : AppConfig
  amountUSD : String
  amountBs : String
  reference : String
  selectedFile : Option FileDesc
  deriving DecidableEq, Repr

/-- The observable outcome of one submission attempt: the error flags
written by `setErrors`, which field got focus, the toasts shown, whether
an upload request went out, whether a `push` to the transaction store was
attempted and what it stored, whether the persistence failure was logged,
and the `window.open` URL (if any). -/
structure SubmitOutcome where
  errors : Bool × Bool
  focusTarget : Option FormField
  toasts : List ToastMsg
  uploadAttempted : Bool
  persistAttempted : Bool
  savedRecord : Option TxRecord
  persistErrorLogged : Bool
  openedUrl : Option String
  deriving DecidableEq, Repr

/-- The amount check of `handleNotifyPayment`:
`!amountUSD || isNaN(usd) || usd <= 0` with `usd = parseFloat(amountUSD)`. -/
def amountInvalid (s : AppState) : Bool :=
  decide (s.amountUSD = "") ||
    (match parseFloat s.amountUSD with
     | none => true
     | some q => Frac.ble q (Frac.ofInt 0))

/-- The parsed USD amount (`usd` in the code); only read after validation,
where `parseFloat` is known to succeed. -/
def usdValue (s : AppState) : Frac := (parseFloat s.amountUSD).getD (Frac.ofInt 0)

/-- src/App.tsx `uploadImageToDrive`, as a function of the endpoint URL
and the endpoint's behaviour: `null` when the URL is missing, when the
request throws, or when the response's `result` is not `"success"`;
otherwise the returned `url`. -/
def uploadImageToDrive (scriptUrl : String) (resp : Option UploadResp) : Option String :=
  if scriptUrl = "" then none
  else
    match resp with
    | none => none
    | some r => if r.result = "success" then some r.url else none

/-- The toast `uploadImageToDrive` itself shows (only the missing-URL
notice; transport errors are just logged). -/
def uploadToasts (scriptUrl : String) : List ToastMsg :=
  if scriptUrl = "" then [⟨"Error: Falta URL de Script", ToastType.error⟩] else []

/-- The part of the WhatsApp message before the date. -/
def msgHead (s : AppState) : String :=
  "PAGO MOVIL - " ++ s.config.nombreNegocio ++ "\n📅 "

/-- The part of the WhatsApp message after the time: amount, rate, Bs,
reference, and the photo link when an image was uploaded. -/
def msgTail (s : AppState) (imageUrl : String) : String :=
  "\n\n💵 " ++ formatVEmin2 (usdValue s) ++ " USD (Tasa: " ++
    formatVEmin2 s.config.tasa ++ ")\n✅ " ++ s.amountBs ++ " Bs\n\n🔢 Ref: " ++
    s.reference ++ (if imageUrl = "" then "" else "\n\n📷 FOTO: " ++ imageUrl)

/-- The full WhatsApp message (`mensaje` in the code). -/
def buildMensaje (s : AppState) (env : Env) (imageUrl : String) : String :=
  msgHead s ++ env.fecha ++ " " ++ env.hora ++ msgTail s imageUrl

/-- The `wa.me` deep link `handleNotifyPayment` opens. -/
def notifyUrl (s : AppState) (env : Env) (imageUrl : String) : String :=
  "https://wa.me/" ++ s.config.whatsapp ++ "?text=" ++
    encodeURIComponent (buildMensaje s env imageUrl)

/-- Steps 2 and 3 of the submission (after validation and a successful or
absent upload): try the `push` when the database handle exists — a failure
is only logged (`console.error`) — then always open the WhatsApp link and
toast the confirmation. -/
def afterUpload (s : AppState) (env : Env) (uploadAttempted : Bool)
    (imageUrl : String) : SubmitOutcome :=
  { errors := (false, false)
    focusTarget := none
    toasts := [⟨"Abriendo WhatsApp...", ToastType.success⟩]
    uploadAttempted := uploadAttempted
    persistAttempted := env.dbAvailable
    savedRecord :=
      if env.dbAvailable && env.persistOk then
        some { date := env.nowISO
               amountUSD := usdValue s
               amountBs := s.amountBs
               reference := s.reference
               photoUrl := if imageUrl = "" then none else some imageUrl
               timestamp := env.nowMs }
      else none
    persistErrorLogged := env.dbAvailable && !env.persistOk
    openedUrl := some (notifyUrl s env imageUrl) }

/-- The abort taken when an attached image fails to upload: error toast,
nothing persisted, no link opened. -/
def abortOutcome (pre : List ToastMsg) : SubmitOutcome :=
  { errors := (false, false)
    focusTarget := none
    toasts := pre ++ [⟨"Error subiendo imagen. Verifica tu conexión.", ToastType.error⟩]
    uploadAttempted := true
    persistAttempted := false
    savedRecord := none
    persistErrorLogged := false
    openedUrl := none }

/-- src/App.tsx `handleNotifyPayment` (lines 280–361): validate amount and
reference (focus the first invalid field, amount before reference, and
stop); upload the attached image if any, aborting the whole submission
when the upload yields no truthy link — `if (!uploadedLink)` is a JS
falsiness check, so both `null` and an empty-string `url` abort; push the
transaction record (failure only logged); build the message and open the
WhatsApp link. -/
def handleNotifyPayment (s : AppState) (env : Env) : SubmitOutcome :=
  if amountInvalid s || decide (s.reference.length ≠ 4) then
    { errors := (amountInvalid s, decide (s.reference.length ≠ 4))
      focusTarget := if amountInvalid s then some FormField.amount else some FormField.reference
      toasts := [⟨"Por favor completa todos los campos", ToastType.error⟩]
      uploadAttempted := false
      persistAttempted := false
      savedRecord := none
      persistErrorLogged := false
      openedUrl := none }
  else
    match s.selectedFile with
    | none => afterUpload s env false ""
    | some _ =>
      match uploadImageToDrive s.config.googleScriptUrl env.uploadResp with
      | none => abortOutcome (uploadToasts s.config.googleScriptUrl)
      | some link =>
        if link = "" then abortOutcome (uploadToasts s.config.googleScriptUrl)
        else afterUpload s env true link

/-! ## File selection (src/App.tsx `handleFileSelect`) -/

/-- The image-attachment state. -/
structure FileState where
  selectedFile : Option FileDesc
  previewUrl : Option String
  deriving DecidableEq, Repr

/-- src/App.tsx `handleFileSelect`: with a chosen file over
`5 * 1024 * 1024` bytes, toast an error and change nothing; otherwise
store the file and a fresh preview URL (`newUrl` stands for
`URL.createObjectURL(file)`). -/
def handleFileSelect (fs : FileState) (files : List FileDesc) (newUrl : String) :
    FileState × Option ToastMsg :=
  match files with
  | [] => (fs, none)
  | f :: _ =>
    if 5 * 1024 * 1024 < f.size then
      (fs, some ⟨"La imagen es muy grande (Max 5MB)", ToastType.error⟩)
    else ({ selectedFile := some f, previewUrl := some newUrl }, none)

/-! ## Admin save (src/App.tsx `saveSettings`) -/

/-- `parseFloat(tasaInput) || 0`: `NaN` (and `0` itself, and `-0`) are
falsy, so they fall back to `0`. -/
def jsOrZero (q : Option Frac) : Frac :=
  match q with
  | none => Frac.ofInt 0
  | some v => if v.num = 0 then Frac.ofInt 0 else v

/-- src/App.tsx `saveSettings`: the configuration written to the config
store (`finalTasa = parseFloat(tasaInput) || 0`, fresh `lastUpdate`). -/
def saveSettings (editConfig : AppConfig) (tasaInput : String) (now : Nat) : AppConfig :=
  { editConfig with tasa := jsOrZero (parseFloat tasaInput), lastUpdate := now }

/-- The guard on the rate input (src/App.tsx line 711): an edit is stored
only when it matches `/^\d*\.?\d*$/` — digits, at most one dot. -/
def tasaInputAllowed (t : String) : Bool :=
  match t.data.dropWhile Char.isDigit with
  | [] => true
  | c :: rest2 => c = '.' && rest2.all Char.isDigit

/-! ## Derived predicates and concrete scenarios used by the claims -/

/-- The C5 invariant on the stored reference. -/
def refWellFormed (s : CalcState) : Prop :=
  s.reference.length ≤ 4 ∧ ∀ c ∈ s.reference.data, c.isDigit = true

/-- Did the upload endpoint fail this submission (transport error or a
non-`"success"` result)? -/
def uploadFailed (env : Env) : Bool :=
  match env.uploadResp with
  | none => true
  | some r => decide (r.result ≠ "success")

/-- The C6 scenario state: the user typed `"10"` into the USD field and
`"1234"` into the reference field, attached no photo, with the default
configuration (rate 60). -/
def s6 : AppState :=
  let c := calcStep (calcStep initCalc (CalcEvent.amount "10")) (CalcEvent.refEdit "1234")
  { config := DEFAULT_CONFIG 0
    amountUSD := c.amountUSD
    amountBs := c.amountBs
    reference := c.reference
    selectedFile := none }

/-- A concrete benign environment: database up, persistence succeeding,
fixed wall-clock renderings. -/
def env6 : Env :=
  { dbAvailable := true
    uploadResp := none
    persistOk := true
    nowISO := "2026-10-11T14:30:00.000Z"
    nowMs := 1760190600000
    fecha := "11/10/2026"
    hora := "10:30 a. m." }

/-- The C10 scenario state: the user typed `"10abc"` into the USD field
and `"1234"` into the reference field, attached no photo. -/
def s10 : AppState :=
  let c := calcStep (calcStep initCalc (CalcEvent.amount "10abc")) (CalcEvent.refEdit "1234")
  { config := DEFAULT_CONFIG 0
    amountUSD := c.amountUSD
    amountBs := c.amountBs
    reference := c.reference
    selectedFile := none }

/-- A filled-out, valid form state used by the witnesses. -/
def baseState : AppState :=
  { config := DEFAULT_CONFIG 0
    amountUSD := "10"
    amountBs := formatVE2 (Frac.mul (Frac.ofInt 10) (Frac.ofInt 60))
    reference := "1234"
    selectedFile := none }

/-- An invalid form state (amount `"0"`, reference `"12"`). -/
def s2bad : AppState := { baseState with amountUSD := "0", reference := "12" }

/-- A small attached receipt image. -/
def file1 : FileDesc := { name := "recibo.png", size := 1024, mime := "image/png" }

/-- A file one byte over the 5 MB limit. -/
def bigFile : FileDesc :=
  { name := "grande.png", size := 5 * 1024 * 1024 + 1, mime := "image/png" }

/-- `baseState` with the receipt attached. -/
def s3file : AppState := { baseState with selectedFile := some file1 }

/-- An environment whose upload endpoint answers with a non-success
result. -/
def env3 : Env := { env6 with uploadResp := some { result := "error", url := "" } }

/-- An environment whose persistence write fails. -/
def env4 : Env := { env6 with persistOk := false }

/-- A file-selection state with a previous selection and preview. -/
def fs0 : FileState := { selectedFile := some file1, previewUrl := some "blob:prev" }

/-! ## C1: the Bs field is always `usd * tasa`, or cleared -/

theorem initCalc_sync : bsInSync initCalc := by
  simp only [bsInSync, initCalc]
  split <;> simp_all

theorem parseFloat_empty : parseFloat "" = none := by decide

theorem handleAmountChange_sync (s : CalcState) (v : String) :
    bsInSync (handleAmountChange s v) := by
  unfold handleAmountChange
  cases h : parseFloat v with
  | none => unfold bsInSync; simp [h]
  | some q =>
    by_cases he : v = ""
    · subst he; exact absurd h (by simp [parseFloat_empty])
    · unfold bsInSync; simp [h, he]

theorem handleReferenceChange_sync (s : CalcState) (v : String)
    (h : bsInSync s) : bsInSync (handleReferenceChange s v) := by
  unfold handleReferenceChange
  unfold bsInSync at h ⊢
  exact h

theorem setTasa_sync (s : CalcState) (r : Frac) (h : bsInSync s) :
    bsInSync (setTasa s r) := by
  unfold setTasa tasaEffect
  unfold bsInSync at h ⊢
  cases hp : parseFloat s.amountUSD with
  | none => simp [hp] at h ⊢; exact h
  | some q =>
    simp [hp] at h ⊢
    by_cases he : s.amountUSD = "" <;> simp_all

theorem calcStep_sync (s : CalcState) (e : CalcEvent) (h : bsInSync s) :
    bsInSync (calcStep s e) := by
  cases e with
  | amount v => exact handleAmountChange_sync s v
  | refEdit v => exact handleReferenceChange_sync s v h
  | rate r => exact setTasa_sync s r h

theorem steps_sync (es : List CalcEvent) (s : CalcState) (h : bsInSync s) :
    bsInSync (List.foldl calcStep s es) := by
  induction es generalizing s with
  | nil => exact h
  | cons e rest ih => exact ih (calcStep s e) (calcStep_sync s e h)

/-- C1: while the form is open — i.e. after any sequence of USD edits,
reference edits and exchange-rate changes starting from the initial
state — the displayed Bolívar amount equals the parsed USD amount times
the current rate, rendered for the es-VE locale with exactly two fraction
digits, and it is cleared exactly when the USD input is empty or
non-numeric; the two fields never go out of sync. -/
theorem c1_bs_always_in_sync (es : List CalcEvent) :
    bsInSync (List.foldl calcStep initCalc es) :=
  steps_sync es initCalc initCalc_sync

/-! ## C5: the stored reference is at most 4 characters, all digits -/

theorem initCalc_ref : refWellFormed initCalc := by
  exact ⟨by simp [initCalc], by simp [initCalc]⟩

theorem handleAmountChange_reference (s : CalcState) (v : String) :
    (handleAmountChange s v).reference = s.reference := by
  unfold handleAmountChange
  cases parseFloat v with
  | none => rfl
  | some q => by_cases he : v = "" <;> simp [he]

theorem setTasa_reference (s : CalcState) (r : Frac) :
    (setTasa s r).reference = s.reference := by
  unfold setTasa tasaEffect
  cases h : parseFloat ({ s with tasa := r } : CalcState).amountUSD with
  | none => simp [h]
  | some q => by_cases he : s.amountUSD = "" <;> simp [h, he]

theorem refWellFormed_of_eq {s t : CalcState} (hr : t.reference = s.reference)
    (h : refWellFormed s) : refWellFormed t := by
  unfold refWellFormed at h ⊢
  rw [hr]
  exact h

theorem calcStep_ref (s : CalcState) (e : CalcEvent) (h : refWellFormed s) :
    refWellFormed (calcStep s e) := by
  cases e with
  | amount v => exact refWellFormed_of_eq (handleAmountChange_reference s v) h
  | refEdit v =>
    constructor
    · show (String.mk ((v.data.filter Char.isDigit).take 4)).length ≤ 4
      simp [String.length]
    · intro c hc
      have hm : c ∈ (v.data.filter Char.isDigit).take 4 := hc
      exact List.of_mem_filter (List.mem_of_mem_take hm)
  | rate r => exact refWellFormed_of_eq (setTasa_reference s r) h

theorem steps_ref (es : List CalcEvent) (s : CalcState) (h : refWellFormed s) :
    refWellFormed (List.foldl calcStep s es) := by
  induction es generalizing s with
  | nil => exact h
  | cons e rest ih => exact ih (calcStep s e) (calcStep_ref s e h)

/-- C5: after any sequence of edits through the input handlers, the stored
reference consists of decimal digits only and is at most 4 characters
long. -/
theorem c5_reference_wellformed (es : List CalcEvent) :
    refWellFormed (List.foldl calcStep initCalc es) :=
  steps_ref es initCalc initCalc_ref

/-! ## C2: validation failures stop the submission -/

/-- C2: whenever the USD amount fails the positivity check or the
reference is not exactly 4 characters, the submission sets the matching
field error flags, performs no upload and no persistence write, opens no
notification link, and focuses the first invalid field in the order
amount, then reference. -/
theorem c2_validation_blocks (s : AppState) (env : Env)
    (h : amountInvalid s = true ∨ s.reference.length ≠ 4) :
    (handleNotifyPayment s env).errors =
      (amountInvalid s, decide (s.reference.length ≠ 4)) ∧
    (amountInvalid s = true → (handleNotifyPayment s env).errors.1 = true) ∧
    (s.reference.length ≠ 4 → (handleNotifyPayment s env).errors.2 = true) ∧
    (handleNotifyPayment s env).uploadAttempted = false ∧
    (handleNotifyPayment s env).persistAttempted = false ∧
    (handleNotifyPayment s env).savedRecord = none ∧
    (handleNotifyPayment s env).openedUrl = none ∧
    (handleNotifyPayment s env).focusTarget =
      (if amountInvalid s then some FormField.amount else some FormField.reference) := by
  have hb : (amountInvalid s || decide (s.reference.length ≠ 4)) = true := by
    rcases h with h | h
    · simp [h]
    · simp [h]
  unfold handleNotifyPayment
  rw [if_pos hb]
  refine ⟨rfl, fun ha => ?_, fun hr => ?_, rfl, rfl, rfl, rfl, rfl⟩
  · simp [ha]
  · simp [hr]

/-! ## C3: a failed image upload aborts the whole submission -/

theorem uploadImageToDrive_of_failed (env : Env) (h : uploadFailed env = true)
    (u : String) : uploadImageToDrive u env.uploadResp = none := by
  unfold uploadImageToDrive
  by_cases hu : u = ""
  · simp [hu]
  · rw [if_neg hu]
    unfold uploadFailed at h
    cases hr : env.uploadResp with
    | none => rfl
    | some r => rw [hr] at h; simp_all

/-- C3: when an image is attached and the upload endpoint fails (transport
error or non-success result), the whole submission aborts with an error
notice — no transaction record is created, no persistence write is even
attempted, and no notification link is opened. -/
theorem c3_upload_failure_aborts (s : AppState) (env : Env) (f : FileDesc)
    (hf : s.selectedFile = some f)
    (hA : amountInvalid s = false) (hR : s.reference.length = 4)
    (hU : uploadFailed env = true) :
    (handleNotifyPayment s env).savedRecord = none ∧
    (handleNotifyPayment s env).persistAttempted = false ∧
    (handleNotifyPayment s env).openedUrl = none ∧
    (⟨"Error subiendo imagen. Verifica tu conexión.", ToastType.error⟩ : ToastMsg) ∈
      (handleNotifyPayment s env).toasts := by
  unfold handleNotifyPayment
  rw [if_neg (by simp [hA, hR]), hf,
    uploadImageToDrive_of_failed env hU s.config.googleScriptUrl]
  refine ⟨rfl, rfl, rfl, ?_⟩
  exact List.mem_append_right _ (List.mem_singleton.mpr rfl)

/-! ## C4: persistence failure does not abort the notification -/

/-- C4: when validation passes and the upload (if any) succeeded with a
truthy link — the code's `if (!uploadedLink)` also aborts on an empty
URL — a failing `push` to the transaction store is only logged: no record
is stored, but the WhatsApp link is still built from the message and
opened, with the confirmation toast. -/
theorem c4_persist_failure_not_fatal (s : AppState) (env : Env)
    (hA : amountInvalid s = false) (hR : s.reference.length = 4)
    (hup : s.selectedFile = none ∨
      ∃ link, uploadImageToDrive s.config.googleScriptUrl env.uploadResp = some link ∧
        link ≠ "")
    (hdb : env.dbAvailable = true) (hp : env.persistOk = false) :
    (handleNotifyPayment s env).persistAttempted = true ∧
    (handleNotifyPayment s env).savedRecord = none ∧
    (handleNotifyPayment s env).persistErrorLogged = true ∧
    (∃ img, (handleNotifyPayment s env).openedUrl = some (notifyUrl s env img)) ∧
    (⟨"Abriendo WhatsApp...", ToastType.success⟩ : ToastMsg) ∈
      (handleNotifyPayment s env).toasts := by
  unfold handleNotifyPayment
  rw [if_neg (by simp [hA, hR])]
  cases hsel : s.selectedFile with
  | none =>
    refine ⟨by simp [afterUpload, hdb], by simp [afterUpload, hdb, hp],
      by simp [afterUpload, hdb, hp], ⟨"", rfl⟩, List.mem_singleton.mpr rfl⟩
  | some f =>
    rcases hup with hnone | hsome
    · rw [hsel] at hnone; cases hnone
    · rcases hsome with ⟨link, hl, hne⟩
      rw [hl]
      refine ⟨by simp [afterUpload, hdb, hne], by simp [afterUpload, hdb, hp, hne],
        by simp [afterUpload, hdb, hp, hne], ⟨link, by simp [afterUpload, hne]⟩,
        by simp [afterUpload, hne]⟩

/-! ## C6: the successful 10 / 1234 submission and its notification link -/

theorem leadMatch_append (p : List Char) : ∀ l t : List Char,
    leadMatch p l = true → leadMatch p (l ++ t) = true := by
  induction p with
  | nil => intro l t _; rfl
  | cons a as ih =>
    intro l t h
    cases l with
    | nil => cases h
    | cons b bs =>
      have h1 : a = b ∧ leadMatch as bs = true := by
        simp only [leadMatch, Bool.and_eq_true, decide_eq_true_eq] at h
        exact h
      show leadMatch (a :: as) (b :: (bs ++ t)) = true
      simp only [leadMatch, Bool.and_eq_true, decide_eq_true_eq]
      exact ⟨h1.1, ih bs t h1.2⟩

theorem containsSub_nil_pat : ∀ l : List Char, containsSub [] l = true := by
  intro l
  cases l with
  | nil => rfl
  | cons c rest => unfold containsSub; rfl

theorem containsSub_append_right (p : List Char) : ∀ h t : List Char,
    containsSub p h = true → containsSub p (h ++ t) = true := by
  intro h
  induction h with
  | nil =>
    intro t hc
    have hp : p = [] := by
      unfold containsSub at hc
      exact List.isEmpty_iff.mp hc
    subst hp
    exact containsSub_nil_pat t
  | cons c rest ih =>
    intro t hc
    simp only [containsSub, Bool.or_eq_true] at hc
    show containsSub p ((c :: rest) ++ t) = true
    rw [List.cons_append]
    simp only [containsSub, Bool.or_eq_true]
    rcases hc with h1 | h2
    · exact Or.inl (leadMatch_append p (c :: rest) t h1)
    · exact Or.inr (ih t h2)

theorem containsSub_prepend (p : List Char) : ∀ (pre h : List Char),
    containsSub p h = true → containsSub p (pre ++ h) = true := by
  intro pre
  induction pre with
  | nil => intro h hc; exact hc
  | cons c rest ih =>
    intro h hc
    show containsSub p ((c :: rest) ++ h) = true
    rw [List.cons_append]
    simp only [containsSub, Bool.or_eq_true]
    exact Or.inr (ih h hc)

theorem encodeChars_append (a b : List Char) :
    encodeChars (a ++ b) = encodeChars a ++ encodeChars b := by
  induction a with
  | nil => rfl
  | cons c rest ih =>
    show (if isURIUnescaped c then String.mk [c]
        else String.join ((utf8Bytes c).map pctByte)) ++ encodeChars (rest ++ b) = _
    rw [ih]
    rw [← String.append_assoc]
    rfl

theorem contains_notifyUrl_of_tail (s : AppState) (env : Env) (img p : String)
    (hc : containsStr p (encodeURIComponent (msgTail s img)) = true) :
    containsStr p (notifyUrl s env img) = true := by
  unfold containsStr at hc ⊢
  unfold encodeURIComponent at hc
  have hdata : (notifyUrl s env img).data =
      ("https://wa.me/" ++ s.config.whatsapp ++ "?text=").data ++
        ((encodeChars (msgHead s ++ env.fecha ++ " " ++ env.hora).data).data ++
          (encodeChars (msgTail s img).data).data) := by
    unfold notifyUrl buildMensaje encodeURIComponent
    rw [show (msgHead s ++ env.fecha ++ " " ++ env.hora ++ msgTail s img).data
        = (msgHead s ++ env.fecha ++ " " ++ env.hora).data ++ (msgTail s img).data from rfl,
      encodeChars_append]
    rfl
  rw [hdata]
  exact containsSub_prepend p.data _ _ (containsSub_prepend p.data _ _ hc)

/-- C6 counterexample: in the concrete 10 / 1234 / no-photo scenario the
notification link is opened, but its URL-encoded text does not contain
`"10.00"` — es-VE renders ten dollars as `10,00`, which the URL encoding
turns into `10%2C00`. -/
theorem c6_counterexample :
    (handleNotifyPayment s6 env6).openedUrl.isSome = true ∧
    containsStr "10.00" ((handleNotifyPayment s6 env6).openedUrl.getD "") = false := by
  decide

/-- C6 (amended): a submission with amount `"10"`, reference `"1234"` and
no photo passes validation and opens a notification link whose URL-encoded
message text contains the es-VE rendering of the USD amount (`10,00`,
encoded `10%2C00`), of the current exchange rate (`60,00`, encoded
`60%2C00`), and the reference `1234` — whatever the date and time render
as. -/
theorem c6_amended (fecha hora : String) :
    (handleNotifyPayment s6 { env6 with fecha := fecha, hora := hora }).errors =
      (false, false) ∧
    ∃ u, (handleNotifyPayment s6 { env6 with fecha := fecha, hora := hora }).openedUrl =
        some u ∧
      containsStr "10%2C00" u = true ∧ containsStr "60%2C00" u = true ∧
      containsStr "1234" u = true := by
  have hred : handleNotifyPayment s6 { env6 with fecha := fecha, hora := hora } =
      afterUpload s6 { env6 with fecha := fecha, hora := hora } false "" := by
    unfold handleNotifyPayment
    rw [if_neg (by decide)]
    rfl
  rw [hred]
  refine ⟨rfl, notifyUrl s6 { env6 with fecha := fecha, hora := hora } "", rfl, ?_, ?_, ?_⟩
  · exact contains_notifyUrl_of_tail s6 _ "" "10%2C00" (by decide)
  · exact contains_notifyUrl_of_tail s6 _ "" "60%2C00" (by decide)
  · exact contains_notifyUrl_of_tail s6 _ "" "1234" (by decide)

/-! ## C7: oversize files are rejected without touching the selection -/

/-- C7: for every file-selection event whose chosen file exceeds
5 MB (`5 * 1024 * 1024` bytes), the handler produces the error notice and
leaves the selection state — previously selected file and preview URL —
exactly as it was. -/
theorem c7_oversize_rejected (fs : FileState) (files : List FileDesc)
    (newUrl : String) (f : FileDesc)
    (hf : files.head? = some f) (hsize : 5 * 1024 * 1024 < f.size) :
    handleFileSelect fs files newUrl =
      (fs, some ⟨"La imagen es muy grande (Max 5MB)", ToastType.error⟩) := by
  cases files with
  | nil => cases hf
  | cons g rest =>
    have hg : g = f := by
      simpa using hf
    subst hg
    simp only [handleFileSelect]
    rw [if_pos hsize]

/-- C7 witness: selecting a file one byte over the limit, on top of an
existing selection, changes nothing and toasts the error. -/
theorem c7_witness :
    ([bigFile].head? = some bigFile ∧ 5 * 1024 * 1024 < bigFile.size) ∧
    handleFileSelect fs0 [bigFile] "blob:new" =
      (fs0, some ⟨"La imagen es muy grande (Max 5MB)", ToastType.error⟩) :=
  ⟨⟨rfl, by decide⟩, c7_oversize_rejected fs0 [bigFile] "blob:new" bigFile rfl (by decide)⟩

/-! ## C8: the theme shades are a deterministic channel-wise adjustment -/

theorem parseHexLeading_pair (x y : Char) (hx : isHexDigit x = true)
    (hy : isHexDigit y = true) :
    parseHexLeading [x, y] = some (16 * hexVal x + hexVal y) := by
  unfold parseHexLeading
  rw [show [x, y].takeWhile isHexDigit = [x, y] by
    simp [List.takeWhile_cons, hx, hy]]
  rw [if_neg (by simp)]
  show some (16 * (16 * 0 + hexVal x) + hexVal y) = _
  norm_num

theorem mapPairs_six (f : List Char → List Char) (a b c d e g : Char) :
    mapPairs f 6 [a, b, c, d, e, g] = f [a, b] ++ (f [c, d] ++ (f [e, g] ++ [])) := rfl

/-- C8: for every six-hex-digit color and integer amount, `adjustColor`
adds the amount to each of the three 8-bit channels, clamps to `[0, 255]`,
and re-encodes each channel as two hex digits; and the derived theme
triple (shades at −20 and −40, translucent shadow) is the same on every
repeated computation from the same color. -/
theorem c8_adjust_channelwise (a : Int) (d1 d2 d3 d4 d5 d6 : Char)
    (h : (isHexDigit d1 && isHexDigit d2 && isHexDigit d3 && isHexDigit d4 &&
          isHexDigit d5 && isHexDigit d6) = true) :
    adjustColor (String.mk ['#', d1, d2, d3, d4, d5, d6]) a =
      String.mk ('#' :: (hex2 (clamp255 (((16 * hexVal d1 + hexVal d2 : Nat) : Int) + a)) ++
        (hex2 (clamp255 (((16 * hexVal d3 + hexVal d4 : Nat) : Int) + a)) ++
          (hex2 (clamp255 (((16 * hexVal d5 + hexVal d6 : Nat) : Int) + a)) ++ [])))) ∧
    themeShades (String.mk ['#', d1, d2, d3, d4, d5, d6]) =
      themeShades (String.mk ['#', d1, d2, d3, d4, d5, d6]) := by
  simp only [Bool.and_eq_true] at h
  obtain ⟨⟨⟨⟨⟨h1, h2⟩, h3⟩, h4⟩, h5⟩, h6⟩ := h
  refine ⟨?_, rfl⟩
  rw [show adjustColor (String.mk ['#', d1, d2, d3, d4, d5, d6]) a =
      String.mk ('#' :: mapPairs (adjustPair a) 6 [d1, d2, d3, d4, d5, d6]) from rfl]
  rw [mapPairs_six]
  unfold adjustPair
  rw [parseHexLeading_pair d1 d2 h1 h2, parseHexLeading_pair d3 d4 h3 h4,
    parseHexLeading_pair d5 d6 h5 h6]

/-- C8 witness: the default theme color `#20963b` darkened by 20. -/
theorem c8_witness :
    (isHexDigit '2' && isHexDigit '0' && isHexDigit '9' && isHexDigit '6' &&
      isHexDigit '3' && isHexDigit 'b') = true ∧
    (adjustColor (String.mk ['#', '2', '0', '9', '6', '3', 'b']) (-20) =
      String.mk ('#' ::
        (hex2 (clamp255 (((16 * hexVal '2' + hexVal '0' : Nat) : Int) + -20)) ++
          (hex2 (clamp255 (((16 * hexVal '9' + hexVal '6' : Nat) : Int) + -20)) ++
            (hex2 (clamp255 (((16 * hexVal '3' + hexVal 'b' : Nat) : Int) + -20)) ++ [])))) ∧
    themeShades (String.mk ['#', '2', '0', '9', '6', '3', 'b']) =
      themeShades (String.mk ['#', '2', '0', '9', '6', '3', 'b'])) :=
  ⟨by decide, c8_adjust_channelwise (-20) '2' '0' '9' '6' '3' 'b' (by decide)⟩

/-! ## Witnesses for the submission-flow claims -/

/-- C2 witness: amount `"0"` and reference `"12"` are both rejected, the
amount field gets focus, and nothing external happens. -/
theorem c2_witness :
    (amountInvalid s2bad = true ∨ s2bad.reference.length ≠ 4) ∧
    ((handleNotifyPayment s2bad env6).errors =
        (amountInvalid s2bad, decide (s2bad.reference.length ≠ 4)) ∧
      (amountInvalid s2bad = true → (handleNotifyPayment s2bad env6).errors.1 = true) ∧
      (s2bad.reference.length ≠ 4 → (handleNotifyPayment s2bad env6).errors.2 = true) ∧
      (handleNotifyPayment s2bad env6).uploadAttempted = false ∧
      (handleNotifyPayment s2bad env6).persistAttempted = false ∧
      (handleNotifyPayment s2bad env6).savedRecord = none ∧
      (handleNotifyPayment s2bad env6).openedUrl = none ∧
      (handleNotifyPayment s2bad env6).focusTarget =
        (if amountInvalid s2bad then some FormField.amount else some FormField.reference)) :=
  ⟨Or.inl (by decide), c2_validation_blocks s2bad env6 (Or.inl (by decide))⟩

/-- C3 witness: a valid form with an attached image whose upload endpoint
answers `result = "error"`. -/
theorem c3_witness :
    (s3file.selectedFile = some file1 ∧ amountInvalid s3file = false ∧
      s3file.reference.length = 4 ∧ uploadFailed env3 = true) ∧
    ((handleNotifyPayment s3file env3).savedRecord = none ∧
      (handleNotifyPayment s3file env3).persistAttempted = false ∧
      (handleNotifyPayment s3file env3).openedUrl = none ∧
      (⟨"Error subiendo imagen. Verifica tu conexión.", ToastType.error⟩ : ToastMsg) ∈
        (handleNotifyPayment s3file env3).toasts) :=
  ⟨⟨rfl, by decide, by decide, by decide⟩,
    c3_upload_failure_aborts s3file env3 file1 rfl (by decide) (by decide) (by decide)⟩

/-- C4 witness: a valid no-photo form whose `push` fails still opens the
WhatsApp link. -/
theorem c4_witness :
    (amountInvalid baseState = false ∧ baseState.reference.length = 4 ∧
      (baseState.selectedFile = none ∨
        ∃ link, uploadImageToDrive baseState.config.googleScriptUrl env4.uploadResp =
          some link ∧ link ≠ "") ∧
      env4.dbAvailable = true ∧ env4.persistOk = false) ∧
    ((handleNotifyPayment baseState env4).persistAttempted = true ∧
      (handleNotifyPayment baseState env4).savedRecord = none ∧
      (handleNotifyPayment baseState env4).persistErrorLogged = true ∧
      (∃ img, (handleNotifyPayment baseState env4).openedUrl =
        some (notifyUrl baseState env4 img)) ∧
      (⟨"Abriendo WhatsApp...", ToastType.success⟩ : ToastMsg) ∈
        (handleNotifyPayment baseState env4).toasts) :=
  ⟨⟨by decide, by decide, Or.inl rfl, rfl, rfl⟩,
    c4_persist_failure_not_fatal baseState env4 (by decide) (by decide) (Or.inl rfl) rfl rfl⟩

/-! ## C9: the saved exchange rate -/

/-- C9 counterexample: saving with an empty rate input (which the input
guard allows) writes exchange rate 0 — `parseFloat("") || 0` — so the
written configuration's rate is not positive. -/
theorem c9_counterexample :
    tasaInputAllowed "" = true ∧
    (saveSettings (DEFAULT_CONFIG 0) "" 0).tasa = Frac.ofInt 0 ∧
    ¬ (0 < (saveSettings (DEFAULT_CONFIG 0) "" 0).tasa.toRat) := by
  refine ⟨by decide, by decide, ?_⟩
  rw [show (saveSettings (DEFAULT_CONFIG 0) "" 0).tasa = Frac.ofInt 0 from by decide]
  simp [Frac.toRat, Frac.ofInt]

theorem parseSign_one (l : List Char) (h : '-' ∉ l) : (parseSign l).1 = 1 := by
  cases l with
  | nil => rfl
  | cons c rest =>
    have hc : c ≠ '-' := fun he => h (he ▸ List.mem_cons_self c rest)
    unfold parseSign
    split
    · next r heq =>
      injection heq with h1 h2
      exact absurd h1 hc
    · rfl
    · rfl

theorem parseFloat_num_nonneg (t : String) (hm : '-' ∉ t.data) (v : Frac)
    (hp : parseFloat t = some v) : 0 ≤ v.num := by
  have hsub : '-' ∉ t.data.dropWhile isSpaceChar := fun hmem =>
    hm (List.Sublist.subset (List.dropWhile_sublist _) hmem)
  have hsgn : signOf t = 1 := parseSign_one _ hsub
  unfold parseFloat at hp
  split at hp
  · exact absurd hp (by simp)
  · split at hp
    · cases Option.some.inj hp
      show 0 ≤ signOf t * mantissaOf t * Int.ofNat (10 ^ (expOf t).toNat)
      rw [hsgn, one_mul]
      exact mul_nonneg (Int.ofNat_nonneg _) (Int.ofNat_nonneg _)
    · cases Option.some.inj hp
      show 0 ≤ signOf t * mantissaOf t
      rw [hsgn, one_mul]
      exact Int.ofNat_nonneg _

theorem noMinus_of_allowed (t : String) (h : tasaInputAllowed t = true) :
    '-' ∉ t.data := by
  intro hmem
  unfold tasaInputAllowed at h
  have hsplit := List.takeWhile_append_dropWhile (p := Char.isDigit) (l := t.data)
  rcases hd : t.data.dropWhile Char.isDigit with _ | ⟨c, rest2⟩
  · rw [hd, List.append_nil] at hsplit
    rw [← hsplit] at hmem
    exact absurd (List.mem_takeWhile_imp hmem) (by decide)
  · rw [hd] at h hsplit
    simp only [Bool.and_eq_true, decide_eq_true_eq, List.all_eq_true] at h
    obtain ⟨hc, hall⟩ := h
    rw [← hsplit] at hmem
    rcases List.mem_append.mp hmem with h1 | h2
    · exact absurd (List.mem_takeWhile_imp h1) (by decide)
    · rcases List.mem_cons.mp h2 with h3 | h4
      · rw [hc] at h3
        exact absurd h3 (by decide)
      · exact absurd (hall _ h4) (by decide)

/-- C9 (amended): every admin save writes `parseFloat(tasaInput) || 0` as
the exchange rate, so under the rate-input guard (digits with at most one
dot) the written rate is always nonnegative — but it is 0, not positive,
whenever the input is empty, a lone dot, or `"0"`. -/
theorem c9_amended (e : AppConfig) (t : String) (now : Nat)
    (h : tasaInputAllowed t = true) :
    0 ≤ (saveSettings e t now).tasa.toRat := by
  have htasa : (saveSettings e t now).tasa = jsOrZero (parseFloat t) := rfl
  rw [htasa]
  unfold jsOrZero
  cases hp : parseFloat t with
  | none => simp [Frac.toRat, Frac.ofInt]
  | some v =>
    show 0 ≤ (if v.num = 0 then Frac.ofInt 0 else v).toRat
    by_cases hz : v.num = 0
    · simp [hz, Frac.toRat, Frac.ofInt]
    · rw [if_neg hz]
      unfold Frac.toRat
      have hnum := parseFloat_num_nonneg t (noMinus_of_allowed t h) v hp
      have h1 : (0 : ℚ) ≤ (v.num : ℚ) := by exact_mod_cast hnum
      have h2 : (0 : ℚ) ≤ (v.den : ℚ) := by positivity
      exact div_nonneg h1 h2

/-- C9 witness: saving with input `"45.5"` writes a nonnegative rate. -/
theorem c9_witness :
    tasaInputAllowed "45.5" = true ∧
    0 ≤ (saveSettings (DEFAULT_CONFIG 0) "45.5" 7).tasa.toRat :=
  ⟨by decide, c9_amended (DEFAULT_CONFIG 0) "45.5" 7 (by decide)⟩

/-! ## C10: trailing garbage after the numeric prefix is accepted -/

/-- C10: the amount validation accepts `"10abc"` — `parseFloat` reads the
leading numeric prefix 10 — the derived Bs amount is computed from 10, and
the submission proceeds treating 10 as the USD amount: the stored record
carries 10 USD and the notification link is opened. -/
theorem c10_trailing_garbage_accepted :
    parseFloat "10abc" = some (Frac.ofInt 10) ∧
    (handleAmountChange initCalc "10abc").amountBs =
      formatVE2 (Frac.mul (Frac.ofInt 10) (Frac.ofInt 60)) ∧
    amountInvalid s10 = false ∧
    usdValue s10 = Frac.ofInt 10 ∧
    (handleNotifyPayment s10 env6).openedUrl.isSome = true ∧
    (handleNotifyPayment s10 env6).savedRecord.map TxRecord.amountUSD =
      some (Frac.ofInt 10) := by
  refine ⟨by decide, by decide, by decide, by decide, by decide, by decide⟩
